import Mathlib

/-!
Verification of the credit-gated asynchronous generation pipeline of the BAI
backend (FastAPI + SQLModel + arq).  The Python routines are shallowly
embedded as Lean functions: Python `int` becomes `Int`, Python dicts become
association lists with first-match lookup, `datetime.utcnow()` becomes an
explicit `now : Nat` parameter, raised `HTTPException`s become explicit error
constructors, and Python truthiness is modelled explicitly wherever the source
relies on it.  Interactions with the database session are embedded as explicit
state passing on the campaign records; interactions with the Redis job queue
are embedded as a `QueueView` input describing what the queue reports.
-/

namespace BAI

/-! ### Association lists: the embedding of Python `dict` -/

/-- Python `dict` with values in `α`, embedded as an association list whose
lookup is first-match. -/
abbrev AList (α : Type) := List (String × α)

/-- Lookup `d.get(k)`: first-match lookup in an association list. -/
def alookup {α : Type} : AList α → String → Option α
  | [], _ => none
  | (k', v) :: rest, k => if k' = k then some v else alookup rest k

/-- The Python dict-merge expression that builds a new dict from `a` updated
by `b` (`b` wins key-by-key); with first-match lookup this is list append with
the override entries in front. -/
def py_dict_update {α : Type} (a b : AList α) : AList α := b ++ a

/-- Payload dicts (`Dict[str, Any]` in the source): JSON objects whose values
are never inspected by the embedded control flow, which only stores them and
tests their truthiness. -/
abbrev Payload := AList String

/-! ### Python truthiness -/

/-- Python truthiness of an optional string (`None` and `""` are falsy). -/
def truthyStr (s : Option String) : Bool :=
  match s with
  | some s => !s.isEmpty
  | none => false

/-- Python truthiness of an optional dict (`None` and `{}` are falsy). -/
def truthyDict (d : Option Payload) : Bool :=
  match d with
  | some (_ :: _) => true
  | _ => false

/-- Python `a or b` on optional strings (used by
`provided_secret = x_bai_secret or callback_data.secret_token`). -/
def pyOrOpt (a b : Option String) : Option String :=
  if truthyStr a then a else b

/-- Python `a or b` where `a` is an optional string and `b` a string (used by
`campaign.error_message or f"..."`). -/
def pyOrStr (a : Option String) (b : String) : String :=
  if truthyStr a then a.getD "" else b

/-- Abstract rendering of Python `str(...)` on a payload dict (only its
existence matters to the embedded control flow, never its exact text). -/
def pyStr (d : Payload) : String :=
  String.intercalate ", " (d.map (fun kv => kv.1 ++ ": " ++ kv.2))

/-- Character-comparison effort of the short-circuit string equality behind
the Python `!=` operator used at the callback secret check
(src/backend/app/modules/content_planner/routes.py line 421): characters are
compared position by position and the scan stops at the first mismatch, so
the effort depends on where the first difference occurs. -/
def strEqCost : List Char → List Char → Nat
  | x :: xs, y :: ys => 1 + (if x = y then strEqCost xs ys else 0)
  | _, _ => 0

/-! ### C1 — credit deduction in `create_campaign`
(src/backend/app/api/routes/marketing.py, lines 113-141) -/

/-- Outcome of the credit charge inside `create_campaign`: either the HTTP 402
`insufficient` rejection (carrying the required cost and the available total
from the error detail) or the updated balances together with the amounts spent
from each bucket. -/
inductive ChargeOutcome where
  | insufficient (required available : Int)
  | charged (monthly' extra' monthly_used extra_used : Int)
deriving DecidableEq, Repr

/-- The credit-deduction logic of `create_campaign`
(src/backend/app/api/routes/marketing.py lines 113-141), embedded verbatim:
the 402 guard on `total_available < cost`, then
`monthly_used = min(monthly, remaining_cost)` guarded by `monthly > 0`, then
`extra_used = min(extra, remaining_cost)` guarded by
`remaining_cost > 0 and extra > 0`. -/
def create_campaign_charge (monthly extra cost : Int) : ChargeOutcome :=
  let total_available := monthly + extra
  if total_available < cost then
    ChargeOutcome.insufficient cost total_available
  else
    let monthly_used := if monthly > 0 then min monthly cost else 0
    let remaining_cost := cost - monthly_used
    let extra_used :=
      if remaining_cost > 0 ∧ extra > 0 then min extra remaining_cost else 0
    ChargeOutcome.charged (monthly - monthly_used) (extra - extra_used)
      monthly_used extra_used

/-! ### Generation entities and their status enums -/

/-- Status enum of content-planner campaigns
(src/backend/app/modules/content_planner/models.py). -/
inductive PlannerStatus where
  | pending
  | in_progress
  | processing_remote
  | review_ready
  | completed
  | failed
  | cancelled
deriving DecidableEq, Repr

/-- The string value of a `PlannerStatus` (the `str`-enum values in
content_planner/models.py). -/
def PlannerStatus.value : PlannerStatus → String
  | .pending => "pending"
  | .in_progress => "in_progress"
  | .processing_remote => "processing_remote"
  | .review_ready => "review_ready"
  | .completed => "completed"
  | .failed => "failed"
  | .cancelled => "cancelled"

/-- Status enum of content-creator campaigns
(src/backend/app/modules/content_creator/models.py). -/
inductive CreatorStatus where
  | pending
  | in_progress
  | completed
  | failed
  | cancelled
deriving DecidableEq, Repr

/-- The string value of a `CreatorStatus`. -/
def CreatorStatus.value : CreatorStatus → String
  | .pending => "pending"
  | .in_progress => "in_progress"
  | .completed => "completed"
  | .failed => "failed"
  | .cancelled => "cancelled"

/-- A content-planner campaign row (`ContentCampaign` in
content_planner/models.py); timestamps are abstract ticks. -/
structure ContentCampaign where
  id : Nat
  user_id : Nat
  month : String
  tone_of_voice : String
  themes : List String
  target_platforms : List String
  status : PlannerStatus
  scheduled_at : Option Nat
  started_at : Option Nat
  completed_at : Option Nat
  generated_content : Option Payload
  error_message : Option String
  arq_job_id : Option String
  campaign_metadata : Option Payload
  created_at : Nat
  updated_at : Option Nat
deriving DecidableEq, Repr

/-- A content-creator campaign row (`Campaign` in
content_creator/models.py). -/
structure Campaign where
  id : Nat
  user_id : Nat
  name : String
  influencer_name : String
  tone_of_voice : String
  platforms : List String
  content_count : Int
  status : CreatorStatus
  scheduled_at : Option Nat
  started_at : Option Nat
  completed_at : Option Nat
  generated_content : Option Payload
  error_message : Option String
  arq_job_id : Option String
  created_at : Nat
  updated_at : Option Nat
deriving DecidableEq, Repr

/-! ### C2 — the status-update operations
(`ContentPlannerService.update_campaign_status`, service.py lines 153-220, and
`ContentCreatorService.update_campaign_status`, service.py lines 180-229) -/

/-- Statement `campaign.status = status; campaign.updated_at = utcnow()`
(service.py: the unconditional head of `update_campaign_status`). -/
def planner_set_status (c : ContentCampaign) (status : PlannerStatus)
    (now : Nat) : ContentCampaign :=
  { c with status := status, updated_at := some now }

/-- Statement `if status == IN_PROGRESS and not campaign.started_at:`. -/
def planner_step_started (c : ContentCampaign) (status : PlannerStatus)
    (now : Nat) : ContentCampaign :=
  if status = PlannerStatus.in_progress ∧ c.started_at = none then
    { c with started_at := some now }
  else c

/-- Statement `if status == PROCESSING_REMOTE and not campaign.started_at:`. -/
def planner_step_remote (c : ContentCampaign) (status : PlannerStatus)
    (now : Nat) : ContentCampaign :=
  if status = PlannerStatus.processing_remote ∧ c.started_at = none then
    { c with started_at := some now }
  else c

/-- Statement `if status == REVIEW_READY: if generated_content: ...`. -/
def planner_step_review (c : ContentCampaign) (status : PlannerStatus)
    (generated_content : Option Payload) : ContentCampaign :=
  if status = PlannerStatus.review_ready ∧ truthyDict generated_content then
    { c with generated_content := generated_content }
  else c

/-- Statement `if status == COMPLETED: campaign.completed_at = utcnow();
if generated_content: ...`. -/
def planner_step_completed (c : ContentCampaign) (status : PlannerStatus)
    (generated_content : Option Payload) (now : Nat) : ContentCampaign :=
  if status = PlannerStatus.completed then
    if truthyDict generated_content then
      { c with completed_at := some now
               generated_content := generated_content }
    else { c with completed_at := some now }
  else c

/-- Statement `if status == FAILED: if error_message: ...`. -/
def planner_step_failed (c : ContentCampaign) (status : PlannerStatus)
    (error_message : Option String) : ContentCampaign :=
  if status = PlannerStatus.failed ∧ truthyStr error_message then
    { c with error_message := error_message }
  else c

/-- Statement `if campaign_metadata:` with the existing/new dict merge. -/
def planner_step_metadata (c : ContentCampaign)
    (campaign_metadata : Option Payload) : ContentCampaign :=
  if truthyDict campaign_metadata then
    if truthyDict c.campaign_metadata then
      { c with
        campaign_metadata :=
          some (py_dict_update (c.campaign_metadata.getD [])
            (campaign_metadata.getD [])) }
    else { c with campaign_metadata := campaign_metadata }
  else c

/-- Method `ContentPlannerService.update_campaign_status` on a found campaign row
(content_planner/service.py lines 153-220): the statements above in source
order.  No transition table is consulted anywhere. -/
def planner_update_campaign_status (campaign : ContentCampaign)
    (status : PlannerStatus) (generated_content : Option Payload)
    (error_message : Option String) (campaign_metadata : Option Payload)
    (now : Nat) : ContentCampaign :=
  planner_step_metadata
    (planner_step_failed
      (planner_step_completed
        (planner_step_review
          (planner_step_remote
            (planner_step_started
              (planner_set_status campaign status now) status now)
            status now)
          status generated_content)
        status generated_content now)
      status error_message)
    campaign_metadata

/-- Head statements of `ContentCreatorService.update_campaign_status`. -/
def creator_set_status (c : Campaign) (status : CreatorStatus)
    (now : Nat) : Campaign :=
  { c with status := status, updated_at := some now }

/-- Statement `if status == IN_PROGRESS and not campaign.started_at:`. -/
def creator_step_started (c : Campaign) (status : CreatorStatus)
    (now : Nat) : Campaign :=
  if status = CreatorStatus.in_progress ∧ c.started_at = none then
    { c with started_at := some now }
  else c

/-- Statement `if status == COMPLETED: campaign.completed_at = utcnow();
if generated_content: ...`. -/
def creator_step_completed (c : Campaign) (status : CreatorStatus)
    (generated_content : Option Payload) (now : Nat) : Campaign :=
  if status = CreatorStatus.completed then
    if truthyDict generated_content then
      { c with completed_at := some now
               generated_content := generated_content }
    else { c with completed_at := some now }
  else c

/-- Statement `if status == FAILED: if error_message: ...`. -/
def creator_step_failed (c : Campaign) (status : CreatorStatus)
    (error_message : Option String) : Campaign :=
  if status = CreatorStatus.failed ∧ truthyStr error_message then
    { c with error_message := error_message }
  else c

/-- Method `ContentCreatorService.update_campaign_status` on a found campaign row
(content_creator/service.py lines 180-229): the statements above in source
order.  No transition table is consulted anywhere. -/
def creator_update_campaign_status (campaign : Campaign)
    (status : CreatorStatus) (generated_content : Option Payload)
    (error_message : Option String) (now : Nat) : Campaign :=
  creator_step_failed
    (creator_step_completed
      (creator_step_started
        (creator_set_status campaign status now) status now)
      status generated_content now)
    status error_message

/-! ### C8 — `ContentCreatorService.update_campaign_job_id`
(content_creator/service.py lines 97-127) -/

/-- Method `ContentCreatorService.update_campaign_job_id` on a found campaign row:
assigns `arq_job_id` and `updated_at`. -/
def creator_update_campaign_job_id (campaign : Campaign) (arq_job_id : String)
    (now : Nat) : Campaign :=
  { campaign with arq_job_id := some arq_job_id, updated_at := some now }

/-! ### C3, C4, C10 — the n8n callback gateway
(src/backend/app/modules/content_planner/routes.py, lines 380-481) -/

/-- The body of the callback POST (`N8nCallbackRequest` in
content_planner/schemas.py). -/
structure N8nCallbackRequest where
  campaign_id : Nat
  generated_content : Option Payload
  secret_token : Option String
  error : Option String
deriving DecidableEq, Repr

/-- The HTTP result of the callback endpoint: a raised `HTTPException`
(status code plus detail) or the 200 `N8nCallbackResponse` ack. -/
inductive CallbackReply where
  | httpError (code : Nat) (detail : String)
  | ack (success : Bool) (message : String) (campaign_id : Nat)
deriving DecidableEq, Repr

/-- Detail of the 500 raised when `INTERNAL_WEBHOOK_SECRET` is unset. -/
def secretMissingDetail : String :=
  "INTERNAL_WEBHOOK_SECRET no esta configurado en el servidor"

/-- Detail of the 401 raised on a secret mismatch. -/
def secretMismatchDetail : String :=
  "Secret invalido. El callback debe incluir el header X-BAI-Secret correcto."

/-- The `n8n_callback` endpoint
(src/backend/app/modules/content_planner/routes.py lines 380-481), embedded as
a function of the configured secret, the `X-BAI-Secret` header, the request
body, and the looked-up campaign row (the database state it may rewrite).
Control flow, in source order: fail 500 when no secret is configured
(truthiness of `settings.INTERNAL_WEBHOOK_SECRET`); take
`provided_secret = x_bai_secret or callback_data.secret_token` and fail 401
when it differs from the configured secret; fail 404 when the campaign does
not exist; on a truthy `error` field mark the campaign FAILED and ack with
`success = False`; otherwise require truthy `generated_content` (else 400) and
update the campaign to COMPLETED with the content attached. -/
def n8n_callback (secret_cfg : Option String) (x_bai_secret : Option String)
    (body : N8nCallbackRequest) (campaign : Option ContentCampaign)
    (now : Nat) : CallbackReply × Option ContentCampaign :=
  if ¬ truthyStr secret_cfg then
    (CallbackReply.httpError 500 secretMissingDetail, campaign)
  else
    let provided_secret := pyOrOpt x_bai_secret body.secret_token
    if provided_secret ≠ secret_cfg then
      (CallbackReply.httpError 401 secretMismatchDetail, campaign)
    else
      match campaign with
      | none =>
          (CallbackReply.httpError 404
            ("Campana con ID " ++ toString body.campaign_id ++
              " no encontrada"), none)
      | some c =>
          if truthyStr body.error then
            let c' := planner_update_campaign_status c PlannerStatus.failed
              none body.error none now
            (CallbackReply.ack false
              ("Campana " ++ toString body.campaign_id ++
                " marcada como fallida: " ++ body.error.getD "")
              body.campaign_id,
              some c')
          else if ¬ truthyDict body.generated_content then
            (CallbackReply.httpError 400
              "El callback debe incluir generated_content con el contenido generado",
              some c)
          else
            let c' := planner_update_campaign_status c PlannerStatus.completed
              body.generated_content none none now
            (CallbackReply.ack true
              ("Campana " ++ toString body.campaign_id ++
                " actualizada. Contenido generado y listo.")
              body.campaign_id,
              some c')

/-! ### C5 — the launch route's dispatch-failure handling
(src/backend/app/modules/content_creator/routes.py, lines 97-133; the
content-planner launch, content_planner/routes.py lines 95-132, handles the
same branch identically) -/

/-- What `arq_pool.enqueue_job` did: returned a job (whose `job_id` may be
absent when arq returns `None` for an already-known job) or raised. -/
inductive EnqueueResult where
  | enqueued (job_id : Option String)
  | raised (msg : String)
deriving DecidableEq, Repr

/-- The HTTP result of a launch request after the campaign row exists: the
202 `CampaignCreatedResponse` or a raised `HTTPException`. -/
inductive LaunchReply where
  | accepted (campaign_id : Nat) (status : String) (message : String)
      (estimated_completion : Int)
  | httpError (code : Nat) (detail : String)
deriving DecidableEq, Repr

/-- The dispatch phase of the content-creator `create_campaign` route
(content_creator/routes.py lines 97-133), embedded from the point where the
campaign row has been created in PENDING: on a successful enqueue the job id
is stored on the row (when truthy) and a 202 is returned with the campaign id
and one `estimated_completion` of `content_count * 15` seconds; when the
enqueue raises, the row is flipped to FAILED through
`update_campaign_status` with the enqueue error message (a single attempt, no
retry), and the route raises a 500 carrying the same message. -/
def content_creator_launch_dispatch (campaign : Campaign)
    (enq : EnqueueResult) (now : Nat) : LaunchReply × Campaign :=
  match enq with
  | EnqueueResult.enqueued job_id =>
      let c' :=
        if truthyStr job_id then
          { campaign with arq_job_id := job_id }
        else campaign
      (LaunchReply.accepted campaign.id "queued"
        ("Campana " ++ campaign.name ++
          " creada y encolada exitosamente. Job ID: " ++ job_id.getD "N/A")
        ((now : Int) + campaign.content_count * 15), c')
  | EnqueueResult.raised msg =>
      let failed := creator_update_campaign_status campaign
        CreatorStatus.failed none (some ("Error al encolar tarea: " ++ msg))
        now
      (LaunchReply.httpError 500
        ("Error al encolar tarea de generacion: " ++ msg), failed)

/-! ### C6, C7 — `ContentCreatorService.get_job_status`
(content_creator/service.py, lines 231-328) -/

/-- Outcome of an `await job.result()` call: the live value, or a raise. -/
inductive LiveFetch where
  | fetched (d : Payload)
  | raised (msg : String)
deriving DecidableEq, Repr

/-- What the Redis job queue reports for a stored job handle:
`statusRaised` when the query itself throws, `expired` when `job.status()`
returns `None` (record evicted), otherwise the native arq state (with the
outcome of the follow-up `job.result()` call where the code makes one). -/
inductive QueueView where
  | statusRaised (msg : String)
  | expired
  | queued
  | deferred
  | running
  | complete (fetch : LiveFetch)
  | failedJob (fetch : LiveFetch)
deriving DecidableEq, Repr

/-- The dict returned by `get_job_status`. -/
structure JobStatusView where
  status : String
  progress : Int
  result : Option Payload
  error : Option String
  job_id : String
deriving DecidableEq, Repr

/-- Method `ContentCreatorService.get_job_status` on a found campaign row, embedded
as a function of the campaign and a `QueueView` describing the queue backend.
Branches, in source order: without a truthy `arq_job_id`, answer from the
persisted row with progress 0 and a fixed explanatory error, consulting
nothing else; with a handle, map the live state
(`queued`/`deferred` progress 0; `running` progress estimated from elapsed
time, `min 99`, default 10 without a start time; `complete` progress 100 with
the live result, falling back to the persisted content if the fetch raises;
`failed` progress 100 with the live error or fallbacks); when `job.status()`
is `None` (expired record) fall back to the persisted row with progress 100
only for COMPLETED; when the query raises, fall back with progress 100 for
COMPLETED, 50 for IN_PROGRESS, 0 otherwise. -/
def creator_get_job_status (campaign : Campaign) (queue : QueueView)
    (now : Nat) : JobStatusView :=
  if ¬ truthyStr campaign.arq_job_id then
    { status := campaign.status.value
      progress := 0
      result := none
      error := some "No hay un job de Arq asociado a esta campana."
      job_id := "N/A" }
  else
    let jid := campaign.arq_job_id.getD ""
    match queue with
    | QueueView.statusRaised msg =>
        { status := campaign.status.value
          progress :=
            if campaign.status = CreatorStatus.completed then 100
            else if campaign.status = CreatorStatus.in_progress then 50
            else 0
          result := campaign.generated_content
          error := some (pyOrStr campaign.error_message
            ("Error al consultar job en Redis: " ++ msg))
          job_id := jid }
    | QueueView.expired =>
        { status := campaign.status.value
          progress :=
            if campaign.status = CreatorStatus.completed then 100 else 0
          result := campaign.generated_content
          error := campaign.error_message
          job_id := jid }
    | QueueView.queued =>
        { status := "queued", progress := 0, result := none, error := none
          job_id := jid }
    | QueueView.deferred =>
        { status := "deferred", progress := 0, result := none, error := none
          job_id := jid }
    | QueueView.running =>
        { status := "running"
          progress :=
            match campaign.started_at with
            | some t =>
                if campaign.content_count ≠ 0 then
                  min (((now : Int) - (t : Int)) * 100 /
                    (campaign.content_count * 15)) 99
                else 10
            | none => 10
          result := none
          error := none
          job_id := jid }
    | QueueView.complete fetch =>
        { status := "complete"
          progress := 100
          result :=
            match fetch with
            | LiveFetch.fetched d => some d
            | LiveFetch.raised _ => campaign.generated_content
          error := none
          job_id := jid }
    | QueueView.failedJob fetch =>
        { status := "failed"
          progress := 100
          result := none
          error := some
            (match fetch with
             | LiveFetch.fetched d =>
                 if d.isEmpty then "Job failed" else pyStr d
             | LiveFetch.raised msg => pyOrStr campaign.error_message msg)
          job_id := jid }

/-! ### C9 — plan/feature matrix and the feature gate
(src/backend/app/models/user.py and src/backend/app/api/deps.py, lines
79-119) -/

/-- Subscription tiers (`PlanTier` in models/user.py), ordered
MOTOR < CEREBRO < PARTNER. -/
inductive PlanTier where
  | MOTOR
  | CEREBRO
  | PARTNER
deriving DecidableEq, Repr

/-- The string value of a tier. -/
def PlanTier.value : PlanTier → String
  | .MOTOR => "MOTOR"
  | .CEREBRO => "CEREBRO"
  | .PARTNER => "PARTNER"

/-- A feature value in the plan matrix: a boolean flag or a numeric limit. -/
inductive FeatVal where
  | flag (b : Bool)
  | lim (n : Nat)
deriving DecidableEq, Repr

/-- Python truthiness of a feature value (`False` and `0` are falsy). -/
def FeatVal.truthy : FeatVal → Bool
  | .flag b => b
  | .lim n => n ≠ 0

/-- Python truthiness of `dict.get(key)` / `dict.get(key, False)` on a
feature dict: missing keys are falsy. -/
def featTruthy (v : Option FeatVal) : Bool :=
  match v with
  | some v => v.truthy
  | none => false

/-- The `PLAN_FEATURE_MATRIX` table (models/user.py). -/
def PLAN_FEATURE_MATRIX : PlanTier → AList FeatVal
  | PlanTier.MOTOR =>
      [("access_mining", FeatVal.flag false),
       ("access_marketing", FeatVal.flag false),
       ("ai_content_generation", FeatVal.flag false),
       ("max_chats", FeatVal.lim 1000)]
  | PlanTier.CEREBRO =>
      [("access_mining", FeatVal.flag true),
       ("access_marketing", FeatVal.flag true),
       ("ai_content_generation", FeatVal.flag true),
       ("max_chats", FeatVal.lim 10000)]
  | PlanTier.PARTNER =>
      [("access_mining", FeatVal.flag true),
       ("access_marketing", FeatVal.flag true),
       ("ai_content_generation", FeatVal.flag true),
       ("max_chats", FeatVal.lim 100000),
       ("dedicated_csm", FeatVal.flag true)]

/-- The `PLAN_PRIORITY` list (deps.py line 79): the ascending tier scan order. -/
def PLAN_PRIORITY : List PlanTier :=
  [PlanTier.MOTOR, PlanTier.CEREBRO, PlanTier.PARTNER]

/-- The subscription-relevant slice of a `User` row: the tier plus the
optional per-user feature override dict. -/
structure UserPlan where
  plan_tier : PlanTier
  features : Option (AList FeatVal)
deriving DecidableEq, Repr

/-- Function `_merge_features` (deps.py lines 82-86): the tier's base matrix with the
user's override dict merged over it when the override is truthy. -/
def merge_features (user : UserPlan) : AList FeatVal :=
  let base_features := PLAN_FEATURE_MATRIX user.plan_tier
  match user.features with
  | some fs => if fs.isEmpty then base_features
               else py_dict_update base_features fs
  | none => base_features

/-- Function `_find_required_plan_for_feature` (deps.py lines 96-100): first tier in
`PLAN_PRIORITY` whose base matrix has the feature truthy. -/
def find_required_plan_for_feature (feature_key : String) : Option PlanTier :=
  PLAN_PRIORITY.find?
    (fun plan => featTruthy (alookup (PLAN_FEATURE_MATRIX plan) feature_key))

/-- The same required tier written from the spec sentence: scan
MOTOR, then CEREBRO, then PARTNER, and return the first tier whose base
matrix grants the feature. -/
def required_tier_spec (feature_key : String) : Option PlanTier :=
  if featTruthy (alookup (PLAN_FEATURE_MATRIX PlanTier.MOTOR) feature_key) then
    some PlanTier.MOTOR
  else if featTruthy
      (alookup (PLAN_FEATURE_MATRIX PlanTier.CEREBRO) feature_key) then
    some PlanTier.CEREBRO
  else if featTruthy
      (alookup (PLAN_FEATURE_MATRIX PlanTier.PARTNER) feature_key) then
    some PlanTier.PARTNER
  else none

/-- The `FeatureForbiddenError` payload raised by the gate (its class lives
outside src/; deps.py raises it with the feature key and the required-plan
label). -/
structure FeatureForbidden where
  feature : String
  required_plan : String
deriving DecidableEq, Repr

/-- Function `requires_feature` (deps.py lines 103-119): pass the user through when
the merged feature dict has the key truthy, else raise `FeatureForbidden`
naming the feature and the first granting tier (label "CEREBRO" when no tier
grants the feature at all). -/
def requires_feature (feature_key : String) (user : UserPlan) :
    Except FeatureForbidden UserPlan :=
  let features := merge_features user
  if featTruthy (alookup features feature_key) then
    Except.ok user
  else
    let required_label :=
      match find_required_plan_for_feature feature_key with
      | some plan => plan.value
      | none => "CEREBRO"
    Except.error { feature := feature_key, required_plan := required_label }

/-- The secret value claim C10 says the gateway compares: the header when it
is present and non-empty, otherwise the body's `secret_token` field. -/
def chosen_secret (header : Option String) (body_token : Option String) :
    Option String :=
  match header with
  | none => body_token
  | some h => if h = "" then body_token else some h

/-! ### Concrete example rows used by counterexamples and witnesses -/

/-- A freshly created content-planner campaign row. -/
def plannerBase : ContentCampaign where
  id := 7
  user_id := 3
  month := "2025-02"
  tone_of_voice := "profesional"
  themes := ["IA"]
  target_platforms := ["Instagram"]
  status := PlannerStatus.pending
  scheduled_at := none
  started_at := none
  completed_at := none
  generated_content := none
  error_message := none
  arq_job_id := none
  campaign_metadata := none
  created_at := 1
  updated_at := none

/-- A planner campaign that has already FAILED. -/
def plannerFailedCampaign : ContentCampaign :=
  { plannerBase with
    status := PlannerStatus.failed
    started_at := some 10
    error_message := some "worker crash"
    arq_job_id := some "job-7" }

/-- A planner campaign awaiting its n8n callback. -/
def plannerRemoteCampaign : ContentCampaign :=
  { plannerBase with
    status := PlannerStatus.processing_remote
    started_at := some 10
    arq_job_id := some "job-7" }

/-- A freshly created content-creator campaign row. -/
def creatorBase : Campaign where
  id := 5
  user_id := 3
  name := "Q1"
  influencer_name := "TechGuru"
  tone_of_voice := "casual"
  platforms := ["TikTok"]
  content_count := 4
  status := CreatorStatus.pending
  scheduled_at := none
  started_at := none
  completed_at := none
  generated_content := none
  error_message := none
  arq_job_id := none
  created_at := 1
  updated_at := none

/-- A creator campaign mid-flight with a stored job handle. -/
def creatorInProgressJob : Campaign :=
  { creatorBase with
    status := CreatorStatus.in_progress
    started_at := some 10
    arq_job_id := some "job-5" }

/-- A COMPLETED creator campaign that was never dispatched (no job handle). -/
def creatorCompletedNoJob : Campaign :=
  { creatorBase with
    status := CreatorStatus.completed
    completed_at := some 30
    generated_content := some [("video", "u")] }

/-- A COMPLETED creator campaign with a stored job handle. -/
def creatorCompletedJob : Campaign :=
  { creatorBase with
    status := CreatorStatus.completed
    completed_at := some 30
    generated_content := some [("video", "u")]
    arq_job_id := some "job-5" }

/-- A creator campaign whose job handle is already set. -/
def creatorWithJob : Campaign :=
  { creatorBase with arq_job_id := some "job-old" }

/-- A callback body carrying generated content and no error. -/
def contentCallbackBody : N8nCallbackRequest where
  campaign_id := 7
  generated_content := some [("posts", "p1")]
  secret_token := none
  error := none

/-- A callback body with neither content nor error nor body token. -/
def emptyCallbackBody : N8nCallbackRequest where
  campaign_id := 7
  generated_content := none
  secret_token := none
  error := none

/-- A callback body whose secret travels in `secret_token`. -/
def bodyTokenCallbackBody : N8nCallbackRequest where
  campaign_id := 7
  generated_content := some [("posts", "p1")]
  secret_token := some "hook-secret"
  error := none

/-- A MOTOR user with no feature overrides. -/
def userMotor : UserPlan where
  plan_tier := PlanTier.MOTOR
  features := none

/-! ## Theorems -/

/-- A Python string built by prepending a non-empty literal is truthy. -/
theorem truthyStr_append (a b : String) (h : a.length ≠ 0) :
    truthyStr (some (a ++ b)) = true := by
  simp only [truthyStr, Bool.not_eq_true']
  rw [Bool.eq_false_iff]
  intro hEmpty
  have h2 := (String.isEmpty_iff _).mp hEmpty
  have hlen := congrArg String.length h2
  simp [String.length_append] at hlen
  exact h hlen.1

/-- Lookup in a concatenation of association lists scans the front list
first. -/
theorem alookup_append {α : Type} (a b : AList α) (k : String) :
    alookup (a ++ b) k =
      Option.orElse (alookup a k) (fun _ => alookup b k) := by
  induction a with
  | nil => rfl
  | cons hd tl ih =>
      rcases hd with ⟨k', v⟩
      by_cases hk : k' = k
      · simp [alookup, hk, Option.orElse]
      · simp [alookup, hk, ih]

/-- C1: for non-negative balances and cost, if `monthly + extra ≥ cost` the
campaign launch's credit deduction succeeds with
`monthly' = max 0 (monthly - cost)` and
`extra' = extra - max 0 (cost - monthly)` (monthly credits spent before
extra), so the balances drop by exactly `cost`; if `monthly + extra < cost`
the launch is rejected with the 402 insufficient-credits error carrying
`required = cost` and `available = monthly + extra`, and neither counter
changes (the rejection happens before any mutation). -/
theorem create_campaign_charge_spec (monthly extra cost : Int)
    (hm : 0 ≤ monthly) (he : 0 ≤ extra) (hc : 0 ≤ cost) :
    (monthly + extra ≥ cost →
      create_campaign_charge monthly extra cost =
        ChargeOutcome.charged (max 0 (monthly - cost))
          (extra - max 0 (cost - monthly)) (min monthly cost)
          (max 0 (cost - monthly)) ∧
      max 0 (monthly - cost) + (extra - max 0 (cost - monthly)) =
        monthly + extra - cost) ∧
    (monthly + extra < cost →
      create_campaign_charge monthly extra cost =
        ChargeOutcome.insufficient cost (monthly + extra)) := by
  constructor
  · intro hge
    constructor
    · simp only [create_campaign_charge, min_def, max_def]
      split_ifs <;>
        first
          | rfl
          | (simp only [ChargeOutcome.charged.injEq, true_and, and_true]
             first
               | trivial
               | omega)
          | omega
    · omega
  · intro hlt
    simp only [create_campaign_charge]
    rw [if_pos hlt]

/-- C1 witness: scenario 1 of the spec, `monthly = 3, extra = 2, cost = 4`
yields `monthly' = 0, extra' = 1, monthly_used = 3, extra_used = 1`. -/
theorem create_campaign_charge_spec_witness :
    create_campaign_charge 3 2 4 =
      ChargeOutcome.charged (max 0 ((3 : Int) - 4)) (2 - max 0 (4 - 3))
        (min 3 4) (max 0 (4 - 3)) ∧
    max 0 ((3 : Int) - 4) + (2 - max 0 (4 - 3)) = 3 + 2 - 4 :=
  (create_campaign_charge_spec 3 2 4 (by decide) (by decide) (by decide)).1
    (by decide)

/-- C2 counterexample: a status write on an already-FAILED planner campaign
is neither rejected nor a no-op — updating the FAILED example row to
COMPLETED silently succeeds and changes the row, contradicting both the
transition-table restriction and FAILED stickiness. -/
theorem update_status_on_failed_campaign_applied :
    (planner_update_campaign_status plannerFailedCampaign
        PlannerStatus.completed (some [("posts", "p1")]) none none 11).status =
      PlannerStatus.completed ∧
    planner_update_campaign_status plannerFailedCampaign
        PlannerStatus.completed (some [("posts", "p1")]) none none 11 ≠
      plannerFailedCampaign := by
  decide

/-- None of the side-effect statements after the head assignment touches the
status field (planner variant). -/
theorem planner_steps_preserve_status (c : ContentCampaign)
    (s : PlannerStatus) (gc : Option Payload) (em : Option String)
    (md : Option Payload) (now : Nat) :
    (planner_step_started c s now).status = c.status ∧
    (planner_step_remote c s now).status = c.status ∧
    (planner_step_review c s gc).status = c.status ∧
    (planner_step_completed c s gc now).status = c.status ∧
    (planner_step_failed c s em).status = c.status ∧
    (planner_step_metadata c md).status = c.status := by
  refine ⟨?_, ?_, ?_, ?_, ?_, ?_⟩ <;>
    first
      | (simp only [planner_step_started]; split <;> rfl)
      | (simp only [planner_step_remote]; split <;> rfl)
      | (simp only [planner_step_review]; split <;> rfl)
      | (simp only [planner_step_completed]; split <;> (try split) <;> rfl)
      | (simp only [planner_step_failed]; split <;> rfl)
      | (simp only [planner_step_metadata]; split <;> (try split) <;> rfl)

/-- None of the side-effect statements after the head assignment touches the
status field (creator variant). -/
theorem creator_steps_preserve_status (c : Campaign) (s : CreatorStatus)
    (gc : Option Payload) (em : Option String) (now : Nat) :
    (creator_step_started c s now).status = c.status ∧
    (creator_step_completed c s gc now).status = c.status ∧
    (creator_step_failed c s em).status = c.status := by
  refine ⟨?_, ?_, ?_⟩ <;>
    first
      | (simp only [creator_step_started]; split <;> rfl)
      | (simp only [creator_step_completed]; split <;> (try split) <;> rfl)
      | (simp only [creator_step_failed]; split <;> rfl)

/-- C2 as amended: neither `update_campaign_status` validates transitions —
for every current row and every requested status (planner and creator alike)
the write is applied unconditionally and the stored status becomes exactly
the requested one, including writes to FAILED rows. -/
theorem update_campaign_status_applies_any_status (c : ContentCampaign)
    (c' : Campaign) (s : PlannerStatus) (s' : CreatorStatus)
    (gc gc' : Option Payload) (em em' : Option String) (md : Option Payload)
    (now now' : Nat) :
    (planner_update_campaign_status c s gc em md now).status = s ∧
    (creator_update_campaign_status c' s' gc' em' now').status = s' := by
  constructor
  · rw [planner_update_campaign_status]
    rw [(planner_steps_preserve_status _ s gc em md now).2.2.2.2.2]
    rw [(planner_steps_preserve_status _ s gc em md now).2.2.2.2.1]
    rw [(planner_steps_preserve_status _ s gc em md now).2.2.2.1]
    rw [(planner_steps_preserve_status _ s gc em md now).2.2.1]
    rw [(planner_steps_preserve_status _ s gc em md now).2.1]
    rw [(planner_steps_preserve_status _ s gc em md now).1]
    rfl
  · rw [creator_update_campaign_status]
    rw [(creator_steps_preserve_status _ s' gc' em' now').2.2]
    rw [(creator_steps_preserve_status _ s' gc' em' now').2.1]
    rw [(creator_steps_preserve_status _ s' gc' em' now').1]
    rfl

/-- C3 (code evaluated at the failing input): a callback with the valid
secret and a non-empty `generated_content` for a PROCESSING_REMOTE
monthly-plan campaign moves the row to COMPLETED — not REVIEW_READY as the
endpoint's own docstring ("La campana queda en estado REVIEW_READY para que
el usuario la revise") and the claim require. -/
theorem n8n_callback_sets_completed_not_review_ready :
    n8n_callback (some "hook-secret") (some "hook-secret")
        contentCallbackBody (some plannerRemoteCampaign) 12 =
      (CallbackReply.ack true
        "Campana 7 actualizada. Contenido generado y listo." 7,
       some { plannerRemoteCampaign with
                status := PlannerStatus.completed
                completed_at := some 12
                generated_content := some [("posts", "p1")]
                updated_at := some 12 }) ∧
    PlannerStatus.completed ≠ PlannerStatus.review_ready := by
  decide

/-- C4 counterexample: the secret check is the plain short-circuit string
inequality, not a constant-effort comparison — two candidate secrets of equal
length take different comparison effort against the same configured secret
(1 character examined versus 11). -/
theorem secret_comparison_effort_not_constant :
    "Xook-secret".length = "hook-secret".length ∧
    strEqCost "Xook-secret".toList "hook-secret".toList ≠
      strEqCost "hook-secret".toList "hook-secret".toList := by
  decide

/-- C4 as amended: with no configured secret (unset or empty) the callback
fails closed with the 500 misconfiguration error and the row is untouched;
with a configured secret, a mismatch of `x_bai_secret or secret_token`
against it fails with 401 and the row is untouched — but the comparison is a
plain equality, not a constant-effort one. -/
theorem n8n_callback_auth_guard (secret_cfg header : Option String)
    (body : N8nCallbackRequest) (campaign : Option ContentCampaign)
    (now : Nat) :
    (truthyStr secret_cfg = false →
      n8n_callback secret_cfg header body campaign now =
        (CallbackReply.httpError 500 secretMissingDetail, campaign)) ∧
    (truthyStr secret_cfg = true →
      pyOrOpt header body.secret_token ≠ secret_cfg →
      n8n_callback secret_cfg header body campaign now =
        (CallbackReply.httpError 401 secretMismatchDetail, campaign)) := by
  constructor
  · intro h
    simp [n8n_callback, h]
  · intro h hne
    simp [n8n_callback, h, hne]

/-- C4 witness: an unset secret yields the 500, and a wrong header against
the configured secret yields the 401, in both cases with the
PROCESSING_REMOTE example row unchanged. -/
theorem n8n_callback_auth_guard_witness :
    n8n_callback none none emptyCallbackBody (some plannerRemoteCampaign) 0 =
      (CallbackReply.httpError 500 secretMissingDetail,
       some plannerRemoteCampaign) ∧
    n8n_callback (some "hook-secret") (some "wrong") emptyCallbackBody
        (some plannerRemoteCampaign) 0 =
      (CallbackReply.httpError 401 secretMismatchDetail,
       some plannerRemoteCampaign) :=
  ⟨(n8n_callback_auth_guard none none emptyCallbackBody
      (some plannerRemoteCampaign) 0).1 (by decide),
   (n8n_callback_auth_guard (some "hook-secret") (some "wrong")
      emptyCallbackBody (some plannerRemoteCampaign) 0).2 (by decide)
      (by decide)⟩

/-- C5 counterexample: when the enqueue raises, the launch request does not
answer 202 — it raises a 500 carrying the enqueue error (while the row is
flipped to FAILED). -/
theorem launch_enqueue_failure_returns_500 :
    (content_creator_launch_dispatch creatorBase
        (EnqueueResult.raised "redis down") 20).1 =
      LaunchReply.httpError 500
        "Error al encolar tarea de generacion: redis down" ∧
    (content_creator_launch_dispatch creatorBase
        (EnqueueResult.raised "redis down") 20).2.status =
      CreatorStatus.failed := by
  decide

/-- C5 as amended: an enqueue failure during a launch flips the freshly
created row to FAILED through a single `update_campaign_status` call carrying
the enqueue error message (no retry), and the HTTP response is a 500 naming
the same error — not a 202. -/
theorem launch_dispatch_failure_spec (campaign : Campaign) (msg : String)
    (now : Nat) :
    content_creator_launch_dispatch campaign (EnqueueResult.raised msg) now =
      (LaunchReply.httpError 500
        ("Error al encolar tarea de generacion: " ++ msg),
       creator_update_campaign_status campaign CreatorStatus.failed none
         (some ("Error al encolar tarea: " ++ msg)) now) ∧
    (creator_update_campaign_status campaign CreatorStatus.failed none
      (some ("Error al encolar tarea: " ++ msg)) now).status =
        CreatorStatus.failed ∧
    (creator_update_campaign_status campaign CreatorStatus.failed none
      (some ("Error al encolar tarea: " ++ msg)) now).error_message =
        some ("Error al encolar tarea: " ++ msg) := by
  have htr : truthyStr (some ("Error al encolar tarea: " ++ msg)) = true :=
    truthyStr_append "Error al encolar tarea: " msg (by decide)
  refine ⟨rfl, ?_, ?_⟩
  · rw [creator_update_campaign_status]
    rw [(creator_steps_preserve_status _ CreatorStatus.failed none
      (some ("Error al encolar tarea: " ++ msg)) now).2.2]
    rw [(creator_steps_preserve_status _ CreatorStatus.failed none
      (some ("Error al encolar tarea: " ++ msg)) now).2.1]
    rw [(creator_steps_preserve_status _ CreatorStatus.failed none
      (some ("Error al encolar tarea: " ++ msg)) now).1]
    rfl
  · rw [creator_update_campaign_status, creator_step_failed]
    rw [if_pos ⟨rfl, htr⟩]

/-- C6 counterexample: for an IN_PROGRESS campaign whose stored job handle
the queue no longer knows (`job.status()` returned `None`), the fallback
reports progress 0, not the claimed 50 — the 50 exists only on the
query-throws path. -/
theorem reconcile_expired_in_progress_not_50 :
    (creator_get_job_status creatorInProgressJob QueueView.expired 20).progress
      ≠ 50 ∧
    (creator_get_job_status creatorInProgressJob QueueView.expired 20).progress
      = 0 := by
  decide

/-- C6 as amended: with a truthy job handle, when the queue record is gone
the reconciler answers from the persisted row with progress 100 for COMPLETED
and 0 otherwise (including IN_PROGRESS), and when the status query throws it
answers from the persisted row with progress 100 for COMPLETED, 50 for
IN_PROGRESS, 0 otherwise; in both cases the persisted result and error ride
along, so a COMPLETED row with an expired record yields progress 100 and its
stored result, never an error reply. -/
theorem reconcile_fallback_spec (campaign : Campaign) (jid msg : String)
    (now : Nat) (hjid : campaign.arq_job_id = some jid) (hne : jid ≠ "") :
    creator_get_job_status campaign QueueView.expired now =
      { status := campaign.status.value
        progress :=
          if campaign.status = CreatorStatus.completed then 100 else 0
        result := campaign.generated_content
        error := campaign.error_message
        job_id := jid } ∧
    creator_get_job_status campaign (QueueView.statusRaised msg) now =
      { status := campaign.status.value
        progress :=
          if campaign.status = CreatorStatus.completed then 100
          else if campaign.status = CreatorStatus.in_progress then 50
          else 0
        result := campaign.generated_content
        error := some (pyOrStr campaign.error_message
          ("Error al consultar job en Redis: " ++ msg))
        job_id := jid } := by
  have htr : truthyStr (some jid) = true := by
    simp only [truthyStr, Bool.not_eq_true']
    rw [Bool.eq_false_iff]
    intro hEmpty
    exact hne ((String.isEmpty_iff _).mp hEmpty)
  constructor <;> simp [creator_get_job_status, hjid, htr]

/-- C6 witness: a COMPLETED example row with handle "job-5" and an expired
queue record yields progress 100 and the persisted result. -/
theorem reconcile_fallback_spec_witness :
    creator_get_job_status creatorCompletedJob QueueView.expired 40 =
      { status := creatorCompletedJob.status.value
        progress :=
          if creatorCompletedJob.status = CreatorStatus.completed then 100
          else 0
        result := creatorCompletedJob.generated_content
        error := creatorCompletedJob.error_message
        job_id := "job-5" } ∧
    creator_get_job_status creatorCompletedJob
        (QueueView.statusRaised "boom") 40 =
      { status := creatorCompletedJob.status.value
        progress :=
          if creatorCompletedJob.status = CreatorStatus.completed then 100
          else if creatorCompletedJob.status = CreatorStatus.in_progress
            then 50 else 0
        result := creatorCompletedJob.generated_content
        error := some (pyOrStr creatorCompletedJob.error_message
          ("Error al consultar job en Redis: " ++ "boom"))
        job_id := "job-5" } :=
  reconcile_fallback_spec creatorCompletedJob "job-5" "boom" 40 rfl
    (by decide)

/-- C7 counterexample: a COMPLETED (terminal) campaign without a job handle
is reported with progress 0, not the claimed 100. -/
theorem reconcile_no_handle_completed_not_100 :
    (creator_get_job_status creatorCompletedNoJob QueueView.expired 20).progress
      ≠ 100 ∧
    (creator_get_job_status creatorCompletedNoJob QueueView.expired 20).progress
      = 0 := by
  decide

/-- C7 as amended: without a truthy job handle the reconciler ignores the
queue entirely (the answer is the same whatever the queue would report) and
returns the persisted status verbatim with progress 0 always — not 100 for
terminal rows — together with a fixed explanatory error, no result, and
job id "N/A". -/
theorem reconcile_no_handle_spec (campaign : Campaign) (q q' : QueueView)
    (now now' : Nat) (h : truthyStr campaign.arq_job_id = false) :
    creator_get_job_status campaign q now =
      { status := campaign.status.value
        progress := 0
        result := none
        error := some "No hay un job de Arq asociado a esta campana."
        job_id := "N/A" } ∧
    creator_get_job_status campaign q now =
      creator_get_job_status campaign q' now' := by
  constructor <;> simp [creator_get_job_status, h]

/-- C7 witness: the COMPLETED handle-less example row, probed against two
different queue views, gives the same progress-0 persisted answer. -/
theorem reconcile_no_handle_spec_witness :
    creator_get_job_status creatorCompletedNoJob QueueView.expired 20 =
      { status := creatorCompletedNoJob.status.value
        progress := 0
        result := none
        error := some "No hay un job de Arq asociado a esta campana."
        job_id := "N/A" } ∧
    creator_get_job_status creatorCompletedNoJob QueueView.expired 20 =
      creator_get_job_status creatorCompletedNoJob QueueView.running 33 :=
  reconcile_no_handle_spec creatorCompletedNoJob QueueView.expired
    QueueView.running 20 33 (by decide)

/-- C8 counterexample: `update_campaign_job_id` called on a row whose handle
is already set replaces it with the different new value — the handle is not
immutable at the operation level. -/
theorem update_campaign_job_id_overwrites :
    creatorWithJob.arq_job_id = some "job-old" ∧
    (creator_update_campaign_job_id creatorWithJob "job-new" 9).arq_job_id =
      some "job-new" ∧
    (creator_update_campaign_job_id creatorWithJob "job-new" 9).arq_job_id ≠
      creatorWithJob.arq_job_id := by
  decide

/-- C8 as amended: `update_campaign_job_id` assigns the handle
unconditionally — the result always stores exactly the given job id,
whatever was there before; single assignment per entity holds only because
the launch flow invokes it once, not because the operation guards it. -/
theorem update_campaign_job_id_unconditional (campaign : Campaign)
    (jid : String) (now : Nat) :
    (creator_update_campaign_job_id campaign jid now).arq_job_id = some jid :=
  rfl

/-- A non-empty optional string is truthy. -/
theorem truthyStr_some_ne (h : String) (hne : h ≠ "") :
    truthyStr (some h) = true := by
  simp only [truthyStr, Bool.not_eq_true']
  rw [Bool.eq_false_iff]
  intro hEmpty
  exact hne ((String.isEmpty_iff _).mp hEmpty)

/-- The code's ascending `find?` scan computes the same required tier as the
spec's explicit MOTOR-then-CEREBRO-then-PARTNER scan. -/
theorem find_required_plan_eq_spec (feature_key : String) :
    find_required_plan_for_feature feature_key =
      required_tier_spec feature_key := by
  cases hM : featTruthy (alookup (PLAN_FEATURE_MATRIX PlanTier.MOTOR)
      feature_key) <;>
  cases hC : featTruthy (alookup (PLAN_FEATURE_MATRIX PlanTier.CEREBRO)
      feature_key) <;>
  cases hP : featTruthy (alookup (PLAN_FEATURE_MATRIX PlanTier.PARTNER)
      feature_key) <;>
    simp [find_required_plan_for_feature, required_tier_spec, PLAN_PRIORITY,
      hM, hC, hP]

/-- C9: the effective feature map is the tier's base matrix with the user's
override dict merged over it key-by-key (override wins); the gate passes
exactly when the merged map has the key truthy; and when it fails it raises
`FeatureForbidden` naming the feature and, as required tier, the first tier
in ascending MOTOR < CEREBRO < PARTNER order whose base matrix grants the
feature (label "CEREBRO" when no tier grants it). -/
theorem requires_feature_spec (user : UserPlan) (feature_key : String) :
    (∀ k, alookup (merge_features user) k =
      Option.orElse (alookup (user.features.getD []) k)
        (fun _ => alookup (PLAN_FEATURE_MATRIX user.plan_tier) k)) ∧
    ((requires_feature feature_key user).isOk = true ↔
      featTruthy (alookup (merge_features user) feature_key) = true) ∧
    (featTruthy (alookup (merge_features user) feature_key) = false →
      requires_feature feature_key user =
        Except.error
          { feature := feature_key
            required_plan :=
              match required_tier_spec feature_key with
              | some p => p.value
              | none => "CEREBRO" }) := by
  refine ⟨?_, ?_, ?_⟩
  · intro k
    rcases hf : user.features with _ | fs
    · simp only [merge_features, hf]
      rfl
    · cases fs with
      | nil =>
          simp only [merge_features, hf]
          rfl
      | cons a l =>
          simp only [merge_features, hf, py_dict_update]
          rw [if_neg (by simp)]
          exact alookup_append (a :: l) _ k
  · rw [requires_feature]
    by_cases hft :
        featTruthy (alookup (merge_features user) feature_key) = true
    · simp [Except.isOk, Except.toBool, hft]
    · simp [Except.isOk, Except.toBool, hft]
  · intro h
    rw [requires_feature]
    rw [if_neg (by simp [h])]
    rw [find_required_plan_eq_spec]

/-- C9 witness: a MOTOR user without overrides asking for
`access_marketing` is rejected naming CEREBRO, the first granting tier. -/
theorem requires_feature_spec_witness :
    featTruthy (alookup (merge_features userMotor) "access_marketing") =
      false ∧
    requires_feature "access_marketing" userMotor =
      Except.error
        { feature := "access_marketing"
          required_plan :=
            match required_tier_spec "access_marketing" with
            | some p => p.value
            | none => "CEREBRO" } :=
  ⟨by decide,
   (requires_feature_spec userMotor "access_marketing").2.2 (by decide)⟩

/-- C10: the gateway takes the secret from the `X-BAI-Secret` header when it
is present and non-empty and otherwise from the body's `secret_token` field
(`x_bai_secret or callback_data.secret_token`), and — given a non-empty
configured secret — the callback clears the 401 gate exactly when that chosen
value equals the configured secret. -/
theorem callback_secret_source_spec (s : String) (header : Option String)
    (body : N8nCallbackRequest) (campaign : Option ContentCampaign)
    (now : Nat) (hs : s ≠ "") :
    pyOrOpt header body.secret_token =
      chosen_secret header body.secret_token ∧
    ((n8n_callback (some s) header body campaign now).1 =
        CallbackReply.httpError 401 secretMismatchDetail ↔
      chosen_secret header body.secret_token ≠ some s) := by
  have htrs : truthyStr (some s) = true := truthyStr_some_ne s hs
  have hpy : pyOrOpt header body.secret_token =
      chosen_secret header body.secret_token := by
    cases header with
    | none => rfl
    | some h =>
        by_cases hh : h = ""
        · subst hh
          rfl
        · simp [pyOrOpt, chosen_secret, truthyStr_some_ne h hh, hh]
  refine ⟨hpy, ?_⟩
  rw [← hpy]
  by_cases hch : pyOrOpt header body.secret_token = some s
  · have hout : (n8n_callback (some s) header body campaign now).1 ≠
        CallbackReply.httpError 401 secretMismatchDetail := by
      simp only [n8n_callback]
      rw [if_neg (by simp [htrs])]
      rw [if_neg (fun hn => hn hch)]
      cases campaign with
      | none => simp
      | some c =>
          by_cases he : truthyStr body.error = true
          · simp [he]
          · by_cases hgc : truthyDict body.generated_content = true
            · simp [he, hgc]
            · simp [he, hgc]
    simp [hout, hch]
  · have hout : (n8n_callback (some s) header body campaign now).1 =
        CallbackReply.httpError 401 secretMismatchDetail := by
      simp only [n8n_callback]
      rw [if_neg (by simp [htrs])]
      rw [if_pos hch]
    simp [hout, hch]

/-- C10 witness: with an empty header, the body token "hook-secret" is the
compared value, and the callback clears the 401 gate since it matches the
configured secret. -/
theorem callback_secret_source_spec_witness :
    pyOrOpt (some "") bodyTokenCallbackBody.secret_token =
      chosen_secret (some "") bodyTokenCallbackBody.secret_token ∧
    ((n8n_callback (some "hook-secret") (some "") bodyTokenCallbackBody
        (some plannerRemoteCampaign) 12).1 =
      CallbackReply.httpError 401 secretMismatchDetail ↔
      chosen_secret (some "") bodyTokenCallbackBody.secret_token ≠
        some "hook-secret") :=
  callback_secret_source_spec "hook-secret" (some "") bodyTokenCallbackBody
    (some plannerRemoteCampaign) 12 (by decide)

end BAI
